import Mathlib

/-!
Verification of the conversation-state intent-resolution engine of the
voice-email-assistant repository, shallowly embedded from src/ui/app.py,
src/core/email_sender.py and src/core/openai_assistant.py.

Python string primitives (lower, strip, split, join, substring test) are
modelled by structurally recursive functions on the underlying character
lists so that all definitions evaluate inside the kernel.
-/

/-- Python str.lower, restricted to ASCII case mapping. -/
def pyLower (s : String) : String := ⟨s.data.map Char.toLower⟩

/-- Strip a character list of leading and trailing whitespace. -/
def stripChars (l : List Char) : List Char :=
  ((l.dropWhile Char.isWhitespace).reverse.dropWhile Char.isWhitespace).reverse

/-- Python str.strip with no argument: remove leading and trailing whitespace. -/
def pyStrip (s : String) : String := ⟨stripChars s.data⟩

/-- Core of Python str.split with an explicit non-empty separator
(sep1 :: srest).  The Nat argument counts separator characters that are
still to be consumed after a separator match was detected, which keeps the
recursion structural on the character list. -/
def pySplitAux (sep1 : Char) (srest : List Char) : List Char → Nat → List (List Char)
  | [], _ => [[]]
  | _ :: rest, skip + 1 => pySplitAux sep1 srest rest skip
  | c :: rest, 0 =>
    if (sep1 :: srest).isPrefixOf (c :: rest) then
      [] :: pySplitAux sep1 srest rest srest.length
    else
      match pySplitAux sep1 srest rest 0 with
      | [] => [[c]]
      | g :: gs => (c :: g) :: gs

/-- Python str.split(sep) for a non-empty separator: split on each
non-overlapping occurrence, scanning left to right.  Python raises on an
empty separator; that case never occurs in the program. -/
def pySplit (sep : String) (s : String) : List String :=
  match sep.data with
  | [] => [s]
  | c :: cs => (pySplitAux c cs s.data 0).map String.mk

/-- Is the first list a contiguous infix of the second list? -/
def listContains (needle : List Char) : List Char → Bool
  | [] => needle.isEmpty
  | c :: rest => needle.isPrefixOf (c :: rest) || listContains needle rest

/-- Python substring membership test, needle in hay. -/
def pyIn (needle hay : String) : Bool := listContains needle.data hay.data

/-- Join character lists with a separator, as Python sep.join. -/
def joinChars (sep : List Char) : List (List Char) → List Char
  | [] => []
  | [x] => x
  | x :: xs => x ++ sep ++ joinChars sep xs

/-- Python sep.join(parts). -/
def pyJoin (sep : String) (parts : List String) : String :=
  ⟨joinChars sep.data (parts.map String.data)⟩

/-- Do all characters of the string satisfy the predicate? -/
def pyAll (p : Char → Bool) (s : String) : Bool := s.data.all p

/-- Python slicing s[:n]. -/
def pyTake (s : String) (n : Nat) : String := ⟨s.data.take n⟩

/-- Python len(s). -/
def pyLen (s : String) : Nat := s.data.length

/-- Python truthiness of an optional string field: None and the empty
string are falsy, any other string is truthy. -/
def truthy : Option String → Bool
  | none => false
  | some s => !(s == "")

/-- One structured analysis of an utterance, the dictionary produced by
EmailAssistant.analyze_command interpreted through the data model: an
optional field is none when the dictionary carries no string for it. -/
structure IntentAnalysis where
  intent : String
  recipient : Option String
  subject : Option String
  body : Option String
  continue_previous : Bool
  explanation : Option String
deriving DecidableEq

/-- The conversation context dictionary self.current_context of
VoiceEmailApp. -/
structure ConversationContext where
  recipient : Option String
  subject : Option String
  partial_body : Option String
  in_conversation : Bool
  last_intent : Option String
deriving DecidableEq

/-- The visible form: recipient_var, subject_var and the message text
widget contents. -/
structure FormState where
  recipient : String
  subject : String
  body : String
deriving DecidableEq

/-- The application state acted on by one voice turn. -/
structure AppState where
  context : ConversationContext
  form : FormState
deriving DecidableEq

/-- Externally observable effects of a turn: log lines, status text,
speech, message boxes, the confirmation dialog, the SMTP transport call
and the add-contact dialog. -/
inductive Effect where
  | log (msg : String)
  | status (msg : String)
  | speak (msg : String)
  | showInfo (title msg : String)
  | showError (title msg : String)
  | confirmDialog (title msg : String)
  | sendAttempt (recipient subject body : String)
  | openAddContact
deriving DecidableEq

/-- External collaborators consulted during one turn: the outcome of the
language-understanding call, the contact directory, the answer of the
confirmation dialog, and the outcome of the mail transport. -/
structure TurnEnv where
  analysis : Option IntentAnalysis
  contacts : String → Option String
  confirmSend : Bool
  sendResult : Bool × String

/-- Default conversation context, as set by _init_application_state and
_reset_conversation_context. -/
def contextInit : ConversationContext :=
  { recipient := none, subject := none, partial_body := none
    in_conversation := false, last_intent := none }

/-- The empty form. -/
def formInit : FormState := { recipient := "", subject := "", body := "" }

/-- The initial application state. -/
def stateInit : AppState := { context := contextInit, form := formInit }

/-- Characters admitted by the local part of the email regular expression
of EmailSender.is_valid_email. -/
def emailLocalChar (c : Char) : Bool :=
  c.isAlphanum || c == '.' || c == '_' || c == '%' || c == '+' || c == '-'

/-- Characters admitted by the domain part of the same expression. -/
def emailDomainChar (c : Char) : Bool := c.isAlphanum || c == '.' || c == '-'

/-- EmailSender.is_valid_email: full match of the anchored pattern of one
or more local characters, an at sign, one or more domain characters, a
dot, and an alphabetic run of length at least two.  Since neither
character class admits the at sign, a match exists exactly when the
string splits at a unique at sign with a well-formed local part and a
domain whose final dot-separated segment is such an alphabetic run. -/
def is_valid_email (email : String) : Bool :=
  match pySplit "@" email with
  | [loc, domain] =>
    !(loc == "") && pyAll emailLocalChar loc &&
    (let segs := pySplit "." domain
     match segs.reverse with
     | tld :: restRev =>
       decide (2 ≤ segs.length) && decide (2 ≤ pyLen tld) && pyAll Char.isAlpha tld &&
       (let rest := pyJoin "." restRev.reverse
        !(rest == "") && pyAll emailDomainChar rest)
     | [] => false)
  | _ => false

/-- VoiceEmailApp._build_conversation_context. -/
def buildConversationContext (c : ConversationContext) : String :=
  if !c.in_conversation then ""
  else
    let parts : List String := []
    let parts := if truthy c.recipient then parts ++ ["Recipient: " ++ c.recipient.getD ""] else parts
    let parts := if truthy c.subject then parts ++ ["Subject: " ++ c.subject.getD ""] else parts
    let parts := if truthy c.partial_body then parts ++ ["Previous message content: " ++ c.partial_body.getD ""] else parts
    if !parts.isEmpty then "Current email draft: " ++ pyJoin "; " parts ++ ". " else ""

/-- VoiceEmailApp._provide_next_step_guidance, computed against the
visible form. -/
def provideNextStepGuidance (s : AppState) : List Effect :=
  let missing : List String :=
    (if s.form.recipient == "" then ["recipient"] else []) ++
    (if s.form.subject == "" then ["subject"] else []) ++
    (if pyStrip s.form.body == "" then ["message body"] else [])
  if missing.isEmpty then
    [Effect.status "Your email is ready to send. Say \x27send it\x27 when ready.",
     Effect.speak "Your email is ready. Say send it when ready."]
  else
    let g := "I need your " ++ pyJoin ", " missing
    [Effect.status g, Effect.speak g]

/-- VoiceEmailApp._clear_form. -/
def clearForm (s : AppState) : AppState × List Effect :=
  ({ s with form := formInit }, [Effect.log "Form cleared"])

/-- VoiceEmailApp._validate_email_form, over the already stripped
recipient and body of _send_email.  Returns the validation verdict, the
state (whose visible recipient field may have been rewritten by contact
resolution) and the emitted effects.  Note that the local recipient
variable of _send_email is not updated by the resolution. -/
def validateEmailForm (env : TurnEnv) (s : AppState) (recipient body : String) :
    Bool × AppState × List Effect :=
  if recipient == "" then
    (false, s, [Effect.showError "Error" "Recipient is required"])
  else
    let afterResolve : Option AppState :=
      if is_valid_email recipient then some s
      else
        match env.contacts (pyLower recipient) with
        | some email => if email == "" then none
                        else some { s with form := { s.form with recipient := email } }
        | none => none
    match afterResolve with
    | none => (false, s, [Effect.showError "Error" ("Invalid email address: " ++ recipient)])
    | some s1 =>
      if body == "" then (false, s1, [Effect.showError "Error" "Email body cannot be empty"])
      else (true, s1, [])

/-- VoiceEmailApp._send_email: strip the form fields, validate, confirm,
attempt the transport, and on success clear the form.  The conversation
context is never touched here. -/
def sendEmail (env : TurnEnv) (s : AppState) : AppState × List Effect :=
  let recipient := pyStrip s.form.recipient
  let subject := pyStrip s.form.subject
  let body := pyStrip s.form.body
  let v := validateEmailForm env s recipient body
  if !v.1 then (v.2.1, v.2.2)
  else
    let s1 := v.2.1
    let preview := pyTake body 50 ++ (if decide (50 < pyLen body) then "..." else "")
    let confirmMsg := "Send email to " ++ recipient ++ "?\n\nSubject: " ++ subject ++
                      "\n\nMessage: " ++ preview
    let effC := v.2.2 ++ [Effect.confirmDialog "Confirm" confirmMsg]
    if !env.confirmSend then (s1, effC)
    else
      let effS := effC ++ [Effect.sendAttempt recipient subject body]
      if env.sendResult.1 then
        let cf := clearForm s1
        (cf.1, effS ++ [Effect.showInfo "Success" "Email sent successfully!",
                        Effect.log ("Email sent to " ++ recipient),
                        Effect.speak "Email sent successfully"] ++ cf.2)
      else
        (s1, effS ++ [Effect.showError "Error" ("Failed to send email: " ++ env.sendResult.2),
                      Effect.log ("Failed to send email: " ++ env.sendResult.2)])

/-- Recipient step of VoiceEmailApp._handle_compose_intent: on a truthy
recipient, record it in the context and put the contact-resolved address
in the visible field. -/
def composeRecipient (env : TurnEnv) (a : IntentAnalysis) (s : AppState) :
    AppState × List Effect :=
  match a.recipient with
  | some r =>
    if r == "" then (s, [])
    else
      let recipientEmail := (env.contacts (pyLower r)).getD r
      ({ s with context := { s.context with recipient := some r }
                form := { s.form with recipient := recipientEmail } },
       [Effect.log ("Setting recipient: " ++ recipientEmail)])
  | none => (s, [])

/-- Subject step of _handle_compose_intent. -/
def composeSubject (a : IntentAnalysis) (s : AppState) : AppState × List Effect :=
  match a.subject with
  | some sub =>
    if sub == "" then (s, [])
    else
      ({ s with context := { s.context with subject := some sub }
                form := { s.form with subject := sub } },
       [Effect.log ("Setting subject: " ++ sub)])
  | none => (s, [])

/-- Body step of _handle_compose_intent: the widget content is replaced. -/
def composeBody (a : IntentAnalysis) (s : AppState) : AppState × List Effect :=
  match a.body with
  | some b =>
    if b == "" then (s, [])
    else
      ({ s with context := { s.context with partial_body := some b }
                form := { s.form with body := b } },
       [Effect.log "Setting message body"])
  | none => (s, [])

/-- VoiceEmailApp._handle_compose_intent. -/
def handleCompose (env : TurnEnv) (a : IntentAnalysis) (s : AppState) :
    AppState × List Effect :=
  let r := composeRecipient env a s
  let t := composeSubject a r.1
  let b := composeBody a t.1
  (b.1, r.2 ++ t.2 ++ b.2 ++ provideNextStepGuidance b.1)

/-- VoiceEmailApp._handle_continue_body_intent. -/
def handleContinueBody (a : IntentAnalysis) (s : AppState) : AppState × List Effect :=
  let currentText := pyStrip s.form.body
  if a.continue_previous && !(currentText == "") then
    let newText := currentText ++ " " ++ a.body.getD ""
    ({ s with form := { s.form with body := newText }
              context := { s.context with partial_body := some newText } },
     [Effect.log "Appended to message body",
      Effect.status "Message updated", Effect.speak "Message updated"])
  else
    let nb := a.body.getD ""
    ({ s with form := { s.form with body := nb }
              context := { s.context with partial_body := some nb } },
     [Effect.log "Updated message body",
      Effect.status "Message updated", Effect.speak "Message updated"])

/-- VoiceEmailApp._handle_send_intent: send, then unconditionally reset
the conversation context. -/
def handleSendIntent (env : TurnEnv) (s : AppState) : AppState × List Effect :=
  let e := sendEmail env s
  ({ e.1 with context := contextInit }, e.2)

/-- VoiceEmailApp._handle_clear_intent. -/
def handleClearIntent (s : AppState) : AppState × List Effect :=
  let c := clearForm s
  ({ c.1 with context := contextInit },
   c.2 ++ [Effect.status "Form cleared", Effect.speak "Form cleared"])

/-- VoiceEmailApp._handle_unknown_intent, reading the in_conversation
flag at the moment the handler runs. -/
def handleUnknownIntent (s : AppState) : AppState × List Effect :=
  if !s.context.in_conversation then
    (s, [Effect.log "I\x27m not sure what you want to do. Try saying \x27Send an email to [name]\x27",
         Effect.status "Try \x27Send an email to [name]\x27",
         Effect.speak "I\x27m not sure what you want to do. Try sending an email to someone."])
  else
    (s, [Effect.log "I didn\x27t understand that in the context of your email. Please try again.",
         Effect.status "Please try again",
         Effect.speak "I didn\x27t understand that in the context of your email."])

/-- VoiceEmailApp._show_help. -/
def showHelp (s : AppState) : AppState × List Effect :=
  (s, [Effect.log ("You can say things like:\n- \x27Send an email to John about the project\x27\n" ++
        "- \x27The meeting is scheduled for Thursday\x27\n- \x27Send it now\x27\n- \x27Start over\x27\n" ++
        "- \x27Add Sarah to my contacts\x27"),
       Effect.status "Help info in log",
       Effect.speak "I\x27ve shown some help in the log"])

/-- VoiceEmailApp._show_add_contact_dialog opens a dialog and mutates no
turn state. -/
def showAddContactDialog (s : AppState) : AppState × List Effect :=
  (s, [Effect.openAddContact])

/-- VoiceEmailApp._handle_intent: dictionary dispatch on the intent
string; any unlisted intent falls back to the UNKNOWN handler. -/
def handleIntent (env : TurnEnv) (a : IntentAnalysis) (s : AppState) :
    AppState × List Effect :=
  match a.intent with
  | "COMPOSE_EMAIL" => handleCompose env a s
  | "CONTINUE_BODY" => handleContinueBody a s
  | "SEND_EMAIL" => handleSendIntent env s
  | "CLEAR_FORM" => handleClearIntent s
  | "ADD_CONTACT" => showAddContactDialog s
  | "HELP" => showHelp s
  | _ => handleUnknownIntent s

/-- VoiceEmailApp._handle_command_fallback, on the raw utterance when the
analysis service produced nothing usable. -/
def handleCommandFallback (command : String) (env : TurnEnv) (s : AppState) :
    AppState × List Effect :=
  let cl := pyLower command
  if pyIn "send" cl && pyIn "email" cl then
    let parts := pySplit "to" cl
    if decide (1 < parts.length) then
      let recipient := (pySplit " " (pyStrip (parts.getD 1 ""))).headD ""
      ({ s with form := { s.form with recipient := recipient } },
       [Effect.log ("Manually detected recipient: " ++ recipient),
        Effect.status "I need more details",
        Effect.speak "I need more details for your email"])
    else (s, [])
  else if pyIn "send" cl && !(s.form.recipient == "") then
    sendEmail env s
  else if pyIn "clear" cl || pyIn "start over" cl then
    let c := clearForm s
    ({ c.1 with context := contextInit },
     c.2 ++ [Effect.status "Form cleared", Effect.speak "Form cleared"])
  else
    (s, [Effect.status "I didn\x27t understand that",
         Effect.speak "I didn\x27t understand that command"])

/-- VoiceEmailApp.process_voice_command: one full turn.  When the
analysis succeeded, the conversation flag and last intent are recorded
before the intent handler is dispatched; otherwise the raw utterance goes
through the keyword fallback. -/
def processVoiceCommand (command : String) (env : TurnEnv) (s : AppState) :
    AppState × List Effect :=
  let eff0 := [Effect.status "Processing..."]
  match env.analysis with
  | some a =>
    let eff1 := eff0 ++ [Effect.log ("AI understood: " ++ a.explanation.getD "No explanation provided")]
    let s1 : AppState :=
      { s with context := { s.context with in_conversation := true, last_intent := some a.intent } }
    let h := handleIntent env a s1
    (h.1, eff1 ++ h.2)
  | none =>
    let h := handleCommandFallback command env s
    (h.1, eff0 ++ h.2)

/-- States reachable in one application session: the initial state,
voice turns, the manual Send and Clear buttons (which invoke _send_email
and _clear_form without touching the conversation context), and the user
typing arbitrary content into the form. -/
inductive Reachable : AppState → Prop where
  | init : Reachable stateInit
  | voiceTurn (cmd : String) (env : TurnEnv) {s : AppState} :
      Reachable s → Reachable (processVoiceCommand cmd env s).1
  | manualSend (env : TurnEnv) {s : AppState} :
      Reachable s → Reachable (sendEmail env s).1
  | manualClear {s : AppState} : Reachable s → Reachable (clearForm s).1
  | editForm (f : FormState) {s : AppState} :
      Reachable s → Reachable { s with form := f }

/-- The value provided for a field by the latest analysis in the list
that provides one, scanning from the front of the list (earliest turn
first): none when no analysis in the list provides the field. -/
def lastProvided (f : IntentAnalysis → Option String) : List IntentAnalysis → Option String
  | [] => none
  | a :: rest =>
    match lastProvided f rest with
    | some v => some v
    | none => f a

/-- The state after one COMPOSE_EMAIL handler application. -/
def applyComposeStep (env : TurnEnv) (a : IntentAnalysis) (s : AppState) : AppState :=
  (handleCompose env a s).1

/-- The state after a sequence of COMPOSE_EMAIL handler applications in
order. -/
def applyComposeSeq (env : TurnEnv) (l : List IntentAnalysis) (s : AppState) : AppState :=
  l.foldl (fun st a => applyComposeStep env a st) s

/-- Every field the analysis provides is a non-empty string: the reading
of a populated field under which presence and Python truthiness agree. -/
def noEmptyFields (a : IntentAnalysis) : Prop :=
  a.recipient ≠ some "" ∧ a.subject ≠ some "" ∧ a.body ≠ some ""

instance (a : IntentAnalysis) : Decidable (noEmptyFields a) := by
  unfold noEmptyFields ; infer_instance

/-- The labelled populated context fields in the fixed order recipient,
subject, body, as listed by the context summary. -/
def summaryParts (c : ConversationContext) : List String :=
  ([("Recipient: ", c.recipient), ("Subject: ", c.subject),
    ("Previous message content: ", c.partial_body)] :
    List (String × Option String)).filterMap
    (fun p => match p.2 with
      | some v => if v == "" then none else some (p.1 ++ v)
      | none => none)

/-- The claim reading of the COMPOSE_EMAIL update, following the spec
words: every field present on the analysis is applied to the draft, and
only absent fields pass through, so presence of an empty string would
overwrite. -/
def composeUpdateFieldsClaim (a : IntentAnalysis) (c : ConversationContext) :
    ConversationContext :=
  { c with recipient := if a.recipient.isSome then a.recipient else c.recipient
           subject := if a.subject.isSome then a.subject else c.subject
           partial_body := if a.body.isSome then a.body else c.partial_body }

/-- First token equal to the literal word to in the whitespace-delimited
token list, then the token after it. -/
def tokenAfterTo : List String → Option String
  | [] => none
  | t :: rest => if t == "to" then rest.head? else tokenAfterTo rest

/-- The claim reading of fallback recipient extraction: the first
whitespace-delimited token after the literal word to of the lowercased
utterance. -/
def firstTokenAfterWordTo (utterance : String) : Option String :=
  tokenAfterTo ((pySplit " " (pyLower utterance)).filter (fun t => !(t == "")))

/-- The recipient the fallback branch actually computes: split the
lowercased utterance on the substring to and take the second piece, which
is the segment lying between the first occurrence of the substring and
its next occurrence (or the end of the utterance when that occurrence is
the only one); strip it and take its first space-delimited token. -/
def fallbackRecipient (cl : String) : String :=
  (pySplit " " (pyStrip ((pySplit "to" cl).getD 1 ""))).headD ""

/-- No effect in the list opens the confirmation dialog, calls the
transport, or raises a message box: the turn did not attempt a send. -/
def sendFree (l : List Effect) : Bool :=
  l.all fun e =>
    match e with
    | .confirmDialog _ _ => false
    | .sendAttempt _ _ _ => false
    | .showInfo _ _ => false
    | .showError _ _ => false
    | _ => true

/-- A decoded Python value as produced by json.loads: the JSON null
decodes to the None object. -/
inductive PyVal where
  | pynone
  | pybool (b : Bool)
  | pyint (n : Int)
  | pystr (s : String)
  | pylist (l : List PyVal)
  | pydict (l : List (String × PyVal))

/-- EmailAssistant.analyze_command: the outcome of the chat-completion
call (error for any raised exception, ok with the message content
otherwise) is stripped and handed to json.loads, modelled by the loads
argument since it is library code; a JSONDecodeError yields None, and the
outer handler turns any service exception into None as well, so the
function returns a value on every input. -/
def analyze_command (serviceResponse : Except Unit String)
    (jsonLoads : String → Except Unit PyVal) : PyVal :=
  match serviceResponse with
  | .error _ => .pynone
  | .ok content =>
    match jsonLoads (pyStrip content) with
    | .ok v => v
    | .error _ => .pynone

/-- A turn environment with no usable analysis and an empty contact
directory, a successful transport and a confirming user. -/
def envFallback : TurnEnv :=
  { analysis := none, contacts := fun _ => none,
    confirmSend := true, sendResult := (true, "Email sent successfully!") }

/-- A turn environment delivering an UNKNOWN analysis. -/
def envUnknown : TurnEnv :=
  { analysis := some { intent := "UNKNOWN", recipient := none, subject := none,
                       body := none, continue_previous := false,
                       explanation := some "unclear" },
    contacts := fun _ => none, confirmSend := false, sendResult := (false, "") }

/-- A turn environment delivering a SEND_EMAIL analysis whose transport
fails with reason boom. -/
def envSendFail : TurnEnv :=
  { analysis := some { intent := "SEND_EMAIL", recipient := none, subject := none,
                       body := none, continue_previous := false,
                       explanation := some "send it" },
    contacts := fun _ => none, confirmSend := true, sendResult := (false, "boom") }

/-- A mid-conversation state with a valid address in the form. -/
def stateDraft : AppState :=
  { context := { recipient := some "bob@example.com", subject := none,
                 partial_body := some "hello", in_conversation := true,
                 last_intent := some "COMPOSE_EMAIL" },
    form := { recipient := "bob@example.com", subject := "Hi", body := "hello" } }

/-- A COMPOSE_EMAIL analysis that provides the recipient as the empty
string, distinct from not providing it. -/
def analysisEmptyRecipient : IntentAnalysis :=
  { intent := "COMPOSE_EMAIL", recipient := some "", subject := none,
    body := none, continue_previous := false, explanation := none }

/-- A COMPOSE_EMAIL analysis that does not provide the recipient. -/
def analysisNoRecipient : IntentAnalysis :=
  { intent := "COMPOSE_EMAIL", recipient := none, subject := none,
    body := none, continue_previous := false, explanation := none }

/-- A mid-conversation state whose draft recipient is the name sarah and
whose visible recipient field holds a valid address. -/
def stateSarah : AppState :=
  { context := { recipient := some "sarah", subject := none, partial_body := none,
                 in_conversation := true, last_intent := some "COMPOSE_EMAIL" },
    form := { recipient := "sarah@example.com", subject := "", body := "hi" } }

/-- The draft value of one field after new information arrives: a value
provided by the analyses overrides, otherwise the old value persists. -/
def overrideWith (newVal old : Option String) : Option String :=
  match newVal with
  | some v => some v
  | none => old

/-- Two compose analyses used as a concrete witness sequence: the first
provides a recipient, the second overrides it and adds a subject. -/
def composeSeqWitnessList : List IntentAnalysis :=
  [{ intent := "COMPOSE_EMAIL", recipient := some "alice", subject := none,
     body := none, continue_previous := false, explanation := none },
   { intent := "COMPOSE_EMAIL", recipient := some "bob", subject := some "Hi",
     body := none, continue_previous := false, explanation := none }]

lemma validateEmailForm_context (env : TurnEnv) (s : AppState) (r b : String) :
    (validateEmailForm env s r b).2.1.context = s.context := by
  simp only [validateEmailForm]
  repeat' split
  all_goals try rfl
  all_goals rename_i s1 heq h
  all_goals
    split at heq
    case isTrue => cases heq ; rfl
    case isFalse =>
      split at heq
      case h_1 =>
        split at heq
        case isTrue => simp at heq
        case isFalse => cases heq ; rfl
      case h_2 => simp at heq

lemma clearForm_context (s : AppState) : (clearForm s).1.context = s.context := rfl

lemma sendEmail_context (env : TurnEnv) (s : AppState) :
    (sendEmail env s).1.context = s.context := by
  simp only [sendEmail]
  repeat' split
  all_goals simp [clearForm, validateEmailForm_context]

lemma composeRecipient_fst (env : TurnEnv) (a : IntentAnalysis) (s : AppState) :
    (composeRecipient env a s).1 =
      if truthy a.recipient then
        { s with context := { s.context with recipient := a.recipient }
                 form := { s.form with recipient :=
                   (env.contacts (pyLower (a.recipient.getD ""))).getD (a.recipient.getD "") } }
      else s := by
  cases h : a.recipient with
  | none => simp [composeRecipient, truthy, h]
  | some r =>
    by_cases hr : r = "" <;> simp [composeRecipient, truthy, h, hr]

lemma composeSubject_fst (a : IntentAnalysis) (s : AppState) :
    (composeSubject a s).1 =
      if truthy a.subject then
        { s with context := { s.context with subject := a.subject }
                 form := { s.form with subject := a.subject.getD "" } }
      else s := by
  cases h : a.subject with
  | none => simp [composeSubject, truthy, h]
  | some v =>
    by_cases hv : v = "" <;> simp [composeSubject, truthy, h, hv]

lemma composeBody_fst (a : IntentAnalysis) (s : AppState) :
    (composeBody a s).1 =
      if truthy a.body then
        { s with context := { s.context with partial_body := a.body }
                 form := { s.form with body := a.body.getD "" } }
      else s := by
  cases h : a.body with
  | none => simp [composeBody, truthy, h]
  | some v =>
    by_cases hv : v = "" <;> simp [composeBody, truthy, h, hv]

lemma applyComposeStep_eq (env : TurnEnv) (a : IntentAnalysis) (s : AppState) :
    applyComposeStep env a s =
      { context := { recipient := if truthy a.recipient then a.recipient else s.context.recipient
                     subject := if truthy a.subject then a.subject else s.context.subject
                     partial_body := if truthy a.body then a.body else s.context.partial_body
                     in_conversation := s.context.in_conversation
                     last_intent := s.context.last_intent }
        form := { recipient :=
                    if truthy a.recipient then
                      (env.contacts (pyLower (a.recipient.getD ""))).getD (a.recipient.getD "")
                    else s.form.recipient
                  subject := if truthy a.subject then a.subject.getD "" else s.form.subject
                  body := if truthy a.body then a.body.getD "" else s.form.body } } := by
  show (handleCompose env a s).1 = _
  simp only [handleCompose, composeRecipient_fst, composeSubject_fst, composeBody_fst]
  by_cases h1 : truthy a.recipient <;> by_cases h2 : truthy a.subject <;>
    by_cases h3 : truthy a.body <;> simp [h1, h2, h3]

lemma handleContinueBody_context_flags (a : IntentAnalysis) (s : AppState) :
    (handleContinueBody a s).1.context.in_conversation = s.context.in_conversation ∧
    (handleContinueBody a s).1.context.recipient = s.context.recipient ∧
    (handleContinueBody a s).1.context.subject = s.context.subject ∧
    (handleContinueBody a s).1.context.last_intent = s.context.last_intent := by
  simp only [handleContinueBody]
  split <;> simp

lemma handleCommandFallback_context_cases (cmd : String) (env : TurnEnv) (s : AppState) :
    (handleCommandFallback cmd env s).1.context = contextInit ∨
    (handleCommandFallback cmd env s).1.context = s.context := by
  simp only [handleCommandFallback]
  repeat' split
  · right ; rfl
  · right ; rfl
  · right ; exact sendEmail_context env s
  · left ; rfl
  · right ; rfl

lemma processVoiceCommand_context_cases (cmd : String) (env : TurnEnv) (s : AppState) :
    (processVoiceCommand cmd env s).1.context = contextInit ∨
    (processVoiceCommand cmd env s).1.context.in_conversation = true ∨
    (processVoiceCommand cmd env s).1.context = s.context := by
  simp only [processVoiceCommand]
  cases h : env.analysis with
  | none =>
    rcases handleCommandFallback_context_cases cmd env s with hc | hc
    · left ; exact hc
    · right ; right ; exact hc
  | some a =>
    simp only [handleIntent]
    split
    · right ; left
      have := applyComposeStep_eq env a
        { s with context := { s.context with in_conversation := true, last_intent := some a.intent } }
      simp only [applyComposeStep] at this
      rw [this]
    · right ; left
      have := (handleContinueBody_context_flags a
        { s with context := { s.context with in_conversation := true, last_intent := some a.intent } }).1
      rw [this]
    · left ; rfl
    · left ; rfl
    · right ; left ; rfl
    · right ; left ; rfl
    · right ; left
      simp only [handleUnknownIntent]
      split <;> rfl

lemma applyComposeStep_idem (env : TurnEnv) (a : IntentAnalysis) (t : AppState) :
    applyComposeStep env a (applyComposeStep env a t) = applyComposeStep env a t := by
  simp only [applyComposeStep_eq]
  by_cases h1 : truthy a.recipient <;> by_cases h2 : truthy a.subject <;>
    by_cases h3 : truthy a.body <;> simp [h1, h2, h3]

lemma applyComposeSeq_lastProvided (env : TurnEnv)
    (fa : IntentAnalysis → Option String) (get : AppState → Option String)
    (hstep : ∀ a s, get (applyComposeStep env a s) = if truthy (fa a) then fa a else get s)
    (l : List IntentAnalysis) :
    ∀ s : AppState, (∀ a ∈ l, fa a ≠ some "") →
      get (applyComposeSeq env l s) = overrideWith (lastProvided fa l) (get s) := by
  induction l with
  | nil => intro s _ ; rfl
  | cons a rest ih =>
    intro s h
    have hr : ∀ b ∈ rest, fa b ≠ some "" := fun b hb => h b (List.mem_cons_of_mem _ hb)
    have ha : fa a ≠ some "" := h a (List.mem_cons_self _ _)
    have hseq : applyComposeSeq env (a :: rest) s
        = applyComposeSeq env rest (applyComposeStep env a s) := rfl
    rw [hseq, ih _ hr, hstep]
    cases hl : lastProvided fa rest with
    | some v => simp [lastProvided, hl, overrideWith]
    | none =>
      cases hfa : fa a with
      | none => simp [lastProvided, hl, overrideWith, truthy, hfa]
      | some v =>
        have hv : ¬ v = "" := fun hveq => ha (by rw [hfa, hveq])
        simp [lastProvided, hl, overrideWith, truthy, hfa, hv]

/-- C1: refuted on the code.  With inConversation false at the start of
the turn and an UNKNOWN analysis, the turn emits the in-conversation
guidance rather than the first-interaction guidance, because
process_voice_command sets the conversation flag and last intent before
dispatching the handler, so the first-interaction branch of
_handle_unknown_intent can never run on the analysis path. -/
theorem unknown_intent_first_turn_code_bug :
    stateInit.context.in_conversation = false ∧
    (processVoiceCommand "what is the weather" envUnknown stateInit).2 =
      [Effect.status "Processing...",
       Effect.log "AI understood: unclear",
       Effect.log "I didn\x27t understand that in the context of your email. Please try again.",
       Effect.status "Please try again",
       Effect.speak "I didn\x27t understand that in the context of your email."] := by
  exact ⟨rfl, rfl⟩

/-- C2 counterexample: a SEND_EMAIL turn whose transport fails with
reason boom surfaces the reason and leaves the form unchanged, but the
conversation context after the turn differs from the one before, so the
combined draft and conversation state is not unchanged as claimed. -/
theorem send_failure_context_reset_counterexample :
    Effect.showError "Error" "Failed to send email: boom"
        ∈ (processVoiceCommand "send the email" envSendFail stateDraft).2 ∧
    (processVoiceCommand "send the email" envSendFail stateDraft).1.form = stateDraft.form ∧
    (processVoiceCommand "send the email" envSendFail stateDraft).1.context ≠ stateDraft.context := by
  exact ⟨by decide, by decide, by decide⟩

/-- C10: analyze_command is total at its boundary: on every service
outcome and every behaviour of the JSON decoder it returns a value, which
is None on a service error or an undecodable response, and exactly the
decoded value of the stripped response content otherwise. -/
theorem analyze_command_total (resp : Except Unit String)
    (loads : String → Except Unit PyVal) :
    analyze_command resp loads = PyVal.pynone ∨
    ∃ c v, resp = Except.ok c ∧ loads (pyStrip c) = Except.ok v ∧
      analyze_command resp loads = v := by
  cases resp with
  | error e => left ; rfl
  | ok c =>
    cases hl : loads (pyStrip c) with
    | error e => left ; simp [analyze_command, hl]
    | ok v => right ; exact ⟨c, v, rfl, hl, by simp [analyze_command, hl]⟩

/-- C2 (amended): when a SEND_EMAIL turn reaches the transport (valid
non-empty recipient and body, user confirms) and the transport fails, the
failure reason is surfaced in the error box and the log and the visible
form is unchanged, so the user may retry without re-dictating; the
conversation context, however, is reset to its default after every send
intent, attempted or successful, rather than left unchanged. -/
theorem send_failure_surfaced_form_unchanged (cmd msg : String) (env : TurnEnv)
    (s : AppState) (a : IntentAnalysis)
    (ha : env.analysis = some a) (hi : a.intent = "SEND_EMAIL")
    (hr : (pyStrip s.form.recipient == "") = false)
    (hv : is_valid_email (pyStrip s.form.recipient) = true)
    (hb : (pyStrip s.form.body == "") = false)
    (hc : env.confirmSend = true)
    (hs : env.sendResult = (false, msg)) :
    (processVoiceCommand cmd env s).1.form = s.form ∧
    (processVoiceCommand cmd env s).1.context = contextInit ∧
    Effect.showError "Error" ("Failed to send email: " ++ msg)
        ∈ (processVoiceCommand cmd env s).2 ∧
    Effect.log ("Failed to send email: " ++ msg)
        ∈ (processVoiceCommand cmd env s).2 := by
  simp only [processVoiceCommand, ha, handleIntent, hi, handleSendIntent, sendEmail,
    validateEmailForm, hr, hv, hb, hc, hs]
  simp

/-- Witness for the amended C2 at a concrete failing send. -/
theorem send_failure_surfaced_form_unchanged_witness :
    (processVoiceCommand "send it" envSendFail stateDraft).1.form = stateDraft.form ∧
    (processVoiceCommand "send it" envSendFail stateDraft).1.context = contextInit ∧
    Effect.showError "Error" ("Failed to send email: " ++ "boom")
        ∈ (processVoiceCommand "send it" envSendFail stateDraft).2 ∧
    Effect.log ("Failed to send email: " ++ "boom")
        ∈ (processVoiceCommand "send it" envSendFail stateDraft).2 :=
  send_failure_surfaced_form_unchanged "send it" "boom" envSendFail stateDraft
    { intent := "SEND_EMAIL", recipient := none, subject := none, body := none,
      continue_previous := false, explanation := some "send it" }
    rfl rfl (by decide) (by decide) (by decide) rfl rfl

/-- C3 counterexample: a COMPOSE_EMAIL analysis whose recipient is
present as the empty string.  The claim reading applies the present field
and would overwrite the populated draft recipient with the empty string,
but the code keeps the old value and behaves identically to an analysis
with no recipient at all, so absence is not treated as distinct from an
empty string. -/
theorem compose_absent_vs_empty_counterexample :
    composeUpdateFieldsClaim analysisEmptyRecipient stateDraft.context
        ≠ (handleCompose envFallback analysisEmptyRecipient stateDraft).1.context ∧
    (composeUpdateFieldsClaim analysisEmptyRecipient stateDraft.context).recipient = some "" ∧
    (handleCompose envFallback analysisEmptyRecipient stateDraft).1.context.recipient
        = some "bob@example.com" ∧
    (handleCompose envFallback analysisEmptyRecipient stateDraft).1
        = (handleCompose envFallback analysisNoRecipient stateDraft).1 := by
  exact ⟨by decide, by decide, by decide, by decide⟩

/-- C3 (amended): the COMPOSE_EMAIL handler updates exactly the draft
fields whose analysis value is a present non-empty string; absent fields
and present empty strings both pass through, so a populated draft field
is never overwritten by an absent or empty analysis field, and the
conversation flag and last intent are untouched. -/
theorem compose_updates_only_truthy_fields (env : TurnEnv) (a : IntentAnalysis) (s : AppState) :
    ((handleCompose env a s).1.context.recipient
        = if truthy a.recipient then a.recipient else s.context.recipient) ∧
    ((handleCompose env a s).1.context.subject
        = if truthy a.subject then a.subject else s.context.subject) ∧
    ((handleCompose env a s).1.context.partial_body
        = if truthy a.body then a.body else s.context.partial_body) ∧
    ((handleCompose env a s).1.context.in_conversation = s.context.in_conversation) ∧
    ((handleCompose env a s).1.context.last_intent = s.context.last_intent) := by
  have h : (handleCompose env a s).1 = _ := applyComposeStep_eq env a s
  rw [h]
  exact ⟨rfl, rfl, rfl, rfl, rfl⟩

/-- C4 counterexample: on the utterance send stock email to bob, the
claimed rule (first whitespace-delimited token after the literal word to)
yields bob, but the fallback splits on the first occurrence of the
substring to, which lies inside the word stock, and stores ck as the
recipient. -/
theorem fallback_recipient_word_to_counterexample :
    firstTokenAfterWordTo "send stock email to bob" = some "bob" ∧
    (handleCommandFallback "send stock email to bob" envFallback stateInit).1.form.recipient
        = "ck" := by
  exact ⟨by decide, by decide⟩

/-- C4 (amended): in the fallback, when the utterance contains send and
email and the lowercased utterance contains the substring to, the
recipient stored in the form is the first space-delimited token of the
stripped segment of the lowercased utterance lying between the first
occurrence of the substring to and its next occurrence, or the end of the
utterance when there is no second occurrence (neither the literal word to
nor everything after the first occurrence): so send an email to tony
stores the empty string, since the second occurrence inside tony cuts the
segment down to a blank, and send an email to victor stores vic; the turn
emits the need-more-details guidance, leaves the conversation context
alone, and does not attempt a send. -/
theorem fallback_send_email_branch (cmd : String) (env : TurnEnv) (s : AppState)
    (h1 : pyIn "send" (pyLower cmd) = true) (h2 : pyIn "email" (pyLower cmd) = true)
    (h3 : 1 < (pySplit "to" (pyLower cmd)).length) :
    (handleCommandFallback cmd env s).1.form.recipient = fallbackRecipient (pyLower cmd) ∧
    (handleCommandFallback cmd env s).1.context = s.context ∧
    Effect.status "I need more details" ∈ (handleCommandFallback cmd env s).2 ∧
    sendFree (handleCommandFallback cmd env s).2 = true ∧
    (handleCommandFallback "send an email to tony" envFallback stateInit).1.form.recipient
        = "" ∧
    (handleCommandFallback "send an email to victor" envFallback stateInit).1.form.recipient
        = "vic" := by
  refine ⟨?_, ?_, ?_, ?_, by decide, by decide⟩ <;>
    simp [handleCommandFallback, h1, h2, h3, fallbackRecipient, sendFree]

/-- Witness for the amended C4 on the spec utterance, where the segment
between the substring to and the end of the utterance starts with sarah
and the two rules happen to agree. -/
theorem fallback_send_email_branch_witness :
    fallbackRecipient (pyLower "send an email to sarah about the meeting") = "sarah" ∧
    ((handleCommandFallback "send an email to sarah about the meeting" envFallback stateInit).1.form.recipient
        = fallbackRecipient (pyLower "send an email to sarah about the meeting") ∧
     (handleCommandFallback "send an email to sarah about the meeting" envFallback stateInit).1.context
        = stateInit.context ∧
     Effect.status "I need more details"
        ∈ (handleCommandFallback "send an email to sarah about the meeting" envFallback stateInit).2 ∧
     sendFree (handleCommandFallback "send an email to sarah about the meeting" envFallback stateInit).2
        = true ∧
     (handleCommandFallback "send an email to tony" envFallback stateInit).1.form.recipient
        = "" ∧
     (handleCommandFallback "send an email to victor" envFallback stateInit).1.form.recipient
        = "vic") :=
  ⟨by decide,
   fallback_send_email_branch "send an email to sarah about the meeting" envFallback stateInit
     (by decide) (by decide) (by decide)⟩

/-- C5: the CONTINUE_BODY handler appends when continuePrevious holds and
the current (stripped) body is non-empty, joining with a single space,
and otherwise replaces the body with the analysis body or the empty
string when absent; the draft body mirror always receives the new widget
content.  In particular Hello continued with world gives Hello world, and
the same call without continuePrevious gives world. -/
theorem continue_body_append_or_replace (a : IntentAnalysis) (s : AppState) :
    ((handleContinueBody a s).1.form.body =
      if a.continue_previous && !(pyStrip s.form.body == "") then
        pyStrip s.form.body ++ " " ++ a.body.getD ""
      else a.body.getD "") ∧
    ((handleContinueBody a s).1.context.partial_body
        = some ((handleContinueBody a s).1.form.body)) ∧
    (handleContinueBody
        { intent := "CONTINUE_BODY", recipient := none, subject := none,
          body := some "world", continue_previous := true, explanation := none }
        { context := contextInit,
          form := { recipient := "", subject := "", body := "Hello" } }).1.form.body
      = "Hello world" ∧
    (handleContinueBody
        { intent := "CONTINUE_BODY", recipient := none, subject := none,
          body := some "world", continue_previous := false, explanation := none }
        { context := contextInit,
          form := { recipient := "", subject := "", body := "Hello" } }).1.form.body
      = "world" := by
  refine ⟨?_, ?_, by decide, by decide⟩ <;>
    by_cases h : (a.continue_previous && !(pyStrip s.form.body == "")) = true <;>
      simp [handleContinueBody, h]

/-- C6: folding any sequence of COMPOSE_EMAIL analyses whose provided
fields are non-empty leaves each draft field holding the value of the
latest analysis that provided it, with the prior value persisting when no
analysis provided the field, and one handler application is idempotent on
the state. -/
theorem compose_sequence_last_writer_wins (env : TurnEnv) (l : List IntentAnalysis)
    (s : AppState) (h : ∀ a ∈ l, noEmptyFields a) :
    ((applyComposeSeq env l s).context.recipient
        = overrideWith (lastProvided (fun a => a.recipient) l) s.context.recipient) ∧
    ((applyComposeSeq env l s).context.subject
        = overrideWith (lastProvided (fun a => a.subject) l) s.context.subject) ∧
    ((applyComposeSeq env l s).context.partial_body
        = overrideWith (lastProvided (fun a => a.body) l) s.context.partial_body) ∧
    (∀ b t, applyComposeStep env b (applyComposeStep env b t) = applyComposeStep env b t) := by
  refine ⟨?_, ?_, ?_, fun b t => applyComposeStep_idem env b t⟩
  · exact applyComposeSeq_lastProvided env (fun a => a.recipient)
      (fun st => st.context.recipient)
      (fun b t => by rw [applyComposeStep_eq]) l s (fun b hb => (h b hb).1)
  · exact applyComposeSeq_lastProvided env (fun a => a.subject)
      (fun st => st.context.subject)
      (fun b t => by rw [applyComposeStep_eq]) l s (fun b hb => (h b hb).2.1)
  · exact applyComposeSeq_lastProvided env (fun a => a.body)
      (fun st => st.context.partial_body)
      (fun b t => by rw [applyComposeStep_eq]) l s (fun b hb => (h b hb).2.2)

/-- Witness for C6 on a concrete two-analysis sequence. -/
theorem compose_sequence_last_writer_wins_witness :
    (∀ a ∈ composeSeqWitnessList, noEmptyFields a) ∧
    (((applyComposeSeq envFallback composeSeqWitnessList stateInit).context.recipient
        = overrideWith (lastProvided (fun a => a.recipient) composeSeqWitnessList)
            stateInit.context.recipient) ∧
     ((applyComposeSeq envFallback composeSeqWitnessList stateInit).context.subject
        = overrideWith (lastProvided (fun a => a.subject) composeSeqWitnessList)
            stateInit.context.subject) ∧
     ((applyComposeSeq envFallback composeSeqWitnessList stateInit).context.partial_body
        = overrideWith (lastProvided (fun a => a.body) composeSeqWitnessList)
            stateInit.context.partial_body) ∧
     (∀ b t, applyComposeStep envFallback b (applyComposeStep envFallback b t)
        = applyComposeStep envFallback b t)) :=
  ⟨by decide,
   compose_sequence_last_writer_wins envFallback composeSeqWitnessList stateInit (by decide)⟩

/-- C7 counterexample: a send triggered through the keyword fallback (an
utterance containing send, no usable analysis, recipient already in the
form) attempts the transport but leaves the conversation context exactly
as it was, so the draft state does not return to its default after this
TriggerSend. -/
theorem fallback_send_skips_reset_counterexample :
    Effect.sendAttempt "sarah@example.com" "" "hi"
        ∈ (processVoiceCommand "send it now" envFallback stateSarah).2 ∧
    (processVoiceCommand "send it now" envFallback stateSarah).1.context
        = stateSarah.context ∧
    stateSarah.context ≠ contextInit := by
  exact ⟨by decide, by decide, by decide⟩

/-- C7 (amended): after any turn whose analysis intent is SEND_EMAIL or
CLEAR_FORM, the conversation context equals its default regardless of the
prior accumulated state and of the send outcome; a send triggered through
the keyword fallback, by contrast, does not reset it. -/
theorem send_or_clear_intent_resets_context (cmd : String) (env : TurnEnv)
    (s : AppState) (a : IntentAnalysis) (ha : env.analysis = some a)
    (hi : a.intent = "SEND_EMAIL" ∨ a.intent = "CLEAR_FORM") :
    (processVoiceCommand cmd env s).1.context = contextInit := by
  rcases hi with hi | hi <;>
    simp [processVoiceCommand, ha, handleIntent, hi, handleSendIntent, handleClearIntent]

/-- Witness for the amended C7: a failing send intent from an accumulated
state still resets the context. -/
theorem send_or_clear_intent_resets_context_witness :
    (processVoiceCommand "please send it" envSendFail stateSarah).1.context = contextInit :=
  send_or_clear_intent_resets_context "please send it" envSendFail stateSarah
    { intent := "SEND_EMAIL", recipient := none, subject := none, body := none,
      continue_previous := false, explanation := some "send it" }
    rfl (Or.inl rfl)

/-- C8: in every reachable state, an inactive conversation flag implies
the whole conversation context is at its default, so no operation leaves
partial draft data behind while marking the conversation inactive. -/
theorem reachable_inactive_context_is_default (s : AppState) (hs : Reachable s) :
    s.context.in_conversation = false → s.context = contextInit := by
  induction hs with
  | init => intro _ ; rfl
  | voiceTurn cmd env hr ih =>
    intro hoff
    rcases processVoiceCommand_context_cases cmd env _ with hc | hc | hc
    · exact hc
    · rw [hc] at hoff ; simp at hoff
    · rw [hc] at hoff ⊢ ; exact ih hoff
  | manualSend env hr ih =>
    intro hoff
    rw [sendEmail_context] at hoff ⊢ ; exact ih hoff
  | manualClear hr ih =>
    intro hoff
    rw [clearForm_context] at hoff ⊢ ; exact ih hoff
  | editForm f hr ih => intro hoff ; exact ih hoff

/-- Witness for C8 at a reachable state produced by one fallback turn. -/
theorem reachable_inactive_context_is_default_witness :
    (processVoiceCommand "hello there" envFallback stateInit).1.context = contextInit :=
  reachable_inactive_context_is_default _
    (Reachable.voiceTurn "hello there" envFallback Reachable.init) (by decide)

lemma summaryParts_eq (c : ConversationContext) :
    summaryParts c =
      (if truthy c.recipient then ["Recipient: " ++ c.recipient.getD ""] else []) ++
      (if truthy c.subject then ["Subject: " ++ c.subject.getD ""] else []) ++
      (if truthy c.partial_body then ["Previous message content: " ++ c.partial_body.getD ""] else []) := by
  cases hr : c.recipient <;> cases hs : c.subject <;> cases hp : c.partial_body <;>
    simp [summaryParts, truthy, hr, hs, hp] <;> split_ifs <;> simp_all

/-- C9: the conversation context summary is the empty string whenever the
conversation flag is off, and otherwise renders exactly the populated
fields, in the fixed order recipient, subject, body, with their labels
joined by semicolons inside the draft wrapper (still empty when no field
is populated). -/
theorem context_summary_format (c : ConversationContext) :
    buildConversationContext c =
      if c.in_conversation then
        (if (summaryParts c).isEmpty then ""
         else "Current email draft: " ++ pyJoin "; " (summaryParts c) ++ ". ")
      else "" := by
  simp only [buildConversationContext, summaryParts_eq]
  cases hin : c.in_conversation <;>
    by_cases h1 : truthy c.recipient <;> by_cases h2 : truthy c.subject <;>
      by_cases h3 : truthy c.partial_body <;> simp [hin, h1, h2, h3]
